import Mathlib

/-!
Verification of the Yatra travel-planning backend (`src/server/server.js`,
`src/server/routes/auth.js`, `src/server/routes/user.js`) against its
natural-language specification.

JavaScript numbers are modelled as `Option ℚ`: `some q` is an ordinary
number, `none` is `NaN`.  Request-body values that may be absent or of
string type are modelled by the `JSVal` type.
-/

namespace Yatra

/-- A JavaScript number: `some q` is an ordinary numeric value, `none` is NaN. -/
abbrev JSNum := Option ℚ

/-- Addition on JS numbers: NaN propagates. -/
def jadd (a b : JSNum) : JSNum :=
  match a, b with
  | some x, some y => some (x + y)
  | _, _ => none

/-- A JavaScript request-body value: `undefined`, a string, or a number. -/
inductive JSVal where
  | undef
  | str (s : String)
  | num (q : ℚ)
deriving DecidableEq, Repr

/-- JavaScript truthiness of a `JSVal`: `undefined`, the empty string and `0`
are falsy, everything else is truthy. -/
def truthy : JSVal → Bool
  | .undef => false
  | .str s => s ≠ ""
  | .num q => q ≠ 0

/-- Value of a list of decimal digit characters. -/
def digitsVal (cs : List Char) : Nat :=
  cs.foldl (fun acc c => acc * 10 + (c.toNat - 48)) 0

/-- Model of JavaScript `parseFloat` on a string: skips leading spaces, reads
an optional sign, then the longest `digits[.digits]` prefix.  Returns `none`
(NaN) when no digit is consumed. -/
def parseFloatStr (s : String) : Option ℚ :=
  let cs := s.data.dropWhile (fun c => c = ' ')
  let signAndRest : ℚ × List Char :=
    match cs with
    | '-' :: rest => (-1, rest)
    | '+' :: rest => (1, rest)
    | _ => (1, cs)
  let intDigits := signAndRest.2.takeWhile Char.isDigit
  let afterInt := signAndRest.2.dropWhile Char.isDigit
  let fracDigits :=
    match afterInt with
    | '.' :: r => r.takeWhile Char.isDigit
    | _ => []
  if intDigits.isEmpty && fracDigits.isEmpty then none
  else some (signAndRest.1 *
    ((digitsVal intDigits : ℚ) + (digitsVal fracDigits : ℚ) / (10 ^ fracDigits.length)))

/-- Model of `parseFloat(x)` applied to a request-body value. -/
def parseFloatVal : JSVal → JSNum
  | .undef => none
  | .str s => parseFloatStr s
  | .num q => some q

/-! ## Pricing tables (`server.js` lines 115–137) -/

/-- Per-tier rates from the `pricing` table in `/calculate-budget`. -/
structure TierRates where
  hotelCostPerNight : ℚ
  foodCostPerDay : ℚ
deriving DecidableEq, Repr

/-- The `pricing` object: tier name → (hotelCostPerNight, foodCostPerDay). -/
def pricing : String → Option TierRates
  | "Mid-Range" => some ⟨1500, 600⟩
  | "Luxury" => some ⟨3000, 1200⟩
  | _ => none

/-- The `transportPricing.Bus` object. -/
def busRates : List (String × ℚ) :=
  [("Ordinary State Bus", 2), ("Volvo Non-AC", 7/2), ("AC Bus", 5)]

/-- The `transportPricing.Train` object. -/
def trainRates : List (String × ℚ) :=
  [("Sleeper", 3/2), ("AC 3 Tier", 3), ("AC 2 Tier", 9/2), ("AC First Class", 7)]

/-- The `transportPricing.Flight` object. -/
def flightRates : List (String × ℚ) :=
  [("Economy", 8), ("Business", 15), ("First Class", 25)]

/-- The outer `transportPricing` object: mode → subtype table. -/
def transportPricing : String → Option (List (String × ℚ))
  | "Bus" => some busRates
  | "Train" => some trainRates
  | "Flight" => some flightRates
  | _ => none

/-- Lookup of `transportPricing[transportMode][transportSubtype]`: the per-km rate, or
`none` when either lookup fails. -/
def perKmRateOf (mode subtype : String) : Option ℚ :=
  (transportPricing mode).bind (fun tbl => tbl.lookup subtype)

/-! ## The `/calculate-budget` handler (`server.js` lines 112–165) -/

/-- Request body of `/calculate-budget` (the fields the handler reads). -/
structure BudgetInput where
  nights : ℚ
  travelers : ℚ
  budgetLevel : String
  transportMode : String
  transportSubtype : String
  shoppingAmount : JSVal
deriving Repr

/-- The first `rows[0].elements[0]` element of a distance-matrix response:
`distance?.value` is `none` when the `distance` object is missing. -/
structure DistanceElement where
  distanceValue : Option ℚ
deriving Repr

/-- A distance-matrix response body; `firstElement = none` models a shape
where `rows[0].elements[0]` is not reachable (the access throws). -/
structure DistanceResponse where
  firstElement : Option DistanceElement
deriving Repr

/-- Outcome of the `axios.get` call to the distance-matrix service. -/
inductive DistanceOutcome where
  | failure
  | success (resp : DistanceResponse)
deriving Repr

/-- The cost breakdown returned on success by `/calculate-budget`. -/
structure Breakdown where
  distanceInKm : ℚ
  transportationCost : ℚ
  foodCost : ℚ
  shoppingCost : JSNum
  hotelCost : ℚ
  totalCost : JSNum
deriving DecidableEq, Repr

/-- Result of the `/calculate-budget` handler. -/
inductive BudgetResult where
  | invalid
  | gatewayError
  | ok (b : Breakdown)
deriving DecidableEq, Repr

/-- Extraction of `distance?.value || 0` from the element: a missing distance, and a zero one,
both give 0. -/
def extractDistance (el : DistanceElement) : ℚ :=
  match el.distanceValue with
  | none => 0
  | some v => if v = 0 then 0 else v

/-- The `/calculate-budget` handler.  `svc` is the outcome of the network
call; the second component of the result records whether the network call was
reached (the validation `return` happens before the `try` block). -/
def calculateBudget (inp : BudgetInput) (svc : DistanceOutcome) :
    BudgetResult × Bool :=
  match pricing inp.budgetLevel, perKmRateOf inp.transportMode inp.transportSubtype with
  | some rates, some perKmRate =>
    match svc with
    | .failure => (.gatewayError, true)
    | .success resp =>
      match resp.firstElement with
      | none => (.gatewayError, true)
      | some el =>
        let distance := extractDistance el
        let distanceKm := distance / 1000
        let transportationCost := inp.travelers * distanceKm * perKmRate
        let foodCost := inp.travelers * inp.nights * rates.foodCostPerDay
        let shoppingCost : JSNum :=
          if truthy inp.shoppingAmount then parseFloatVal inp.shoppingAmount else some 0
        let hotelCost := inp.travelers * inp.nights * rates.hotelCostPerNight
        let totalCost := jadd (jadd (jadd (some transportationCost) (some foodCost))
          shoppingCost) (some hotelCost)
        (.ok ⟨distanceKm, transportationCost, foodCost, shoppingCost, hotelCost, totalCost⟩,
          true)
  | _, _ => (.invalid, false)

/-! ## Users, password hashing and tokens -/

/-- A stored user document (`userSchema`: name, email, password hash; `_id`
modelled as a `Nat`). -/
structure UserRec where
  id : Nat
  name : String
  email : String
  password : String
deriving DecidableEq, Repr

/-- Model of `bcrypt.hash(pw, 10)`: an opaque salted one-way hash, modelled
as an injective tagged encoding of the cost factor and the password. -/
def bcryptHash (cost : Nat) (pw : String) : String :=
  "bcrypt$" ++ toString cost ++ "$" ++ pw

/-- Model of `bcrypt.compare(pw, hash)`: verifies that `hash` is the hash of
`pw` at the stored cost factor. -/
def bcryptCompare (pw hash : String) : Bool :=
  hash = bcryptHash 10 pw

/-- JS truthiness of an optional string body field: `undefined` and `""` are
falsy. -/
def falsyStr : Option String → Bool
  | none => true
  | some s => s = ""

/-- Model of `User.findOne` by email over the credential store, as the
first stored user with that email. -/
def findOneByEmail (db : List UserRec) (email : String) : Option UserRec :=
  db.find? (fun u => u.email = email)

/-- Result of the `/signup` handler (`server.js` lines 66–84). -/
inductive SignupResult where
  | missingFields
  | emailExists
  | created
deriving DecidableEq, Repr

/-- The `/signup` handler: validates that all three fields are truthy,
rejects a duplicate email, otherwise hashes the password with cost 10 and
appends the new user (with store-generated id `nextId`).  Returns the
response and the updated credential store. -/
def signup (db : List UserRec) (nextId : Nat) (name email password : Option String) :
    SignupResult × List UserRec :=
  if falsyStr name || falsyStr email || falsyStr password then
    (.missingFields, db)
  else
    match findOneByEmail db (email.getD "") with
    | some _ => (.emailExists, db)
    | none =>
      (.created, db ++ [⟨nextId, name.getD "", email.getD "", bcryptHash 10 (password.getD "")⟩])

/-- A signed JWT, modelled as its decoded payload (`{ id }`, plus `exp` set
by the one-hour expiry option) together with the signature over that payload. -/
structure Token where
  id : Nat
  exp : Nat
  sig : Nat
deriving DecidableEq, Repr

/-- Model of the HMAC signature over a token payload with the process-wide
secret.  Verification recomputes it and compares. -/
def mac (secret : String) (id exp : Nat) : Nat :=
  secret.length * 7919 + id * 31 + exp

/-- Model of `jwt.sign` over the payload with the one-hour expiry option, at issuance
time `now` (seconds): payload carries the user id and `exp = now + 3600`. -/
def jwtSign (secret : String) (id now : Nat) : Token :=
  ⟨id, now + 3600, mac secret id (now + 3600)⟩

/-- Model of `jwt.verify(token, JWT_SECRET)` at time `now`: succeeds with the
decoded payload id exactly when the signature matches the recomputed one and
the token is not expired. -/
def jwtVerify (secret : String) (now : Nat) (t : Token) : Option Nat :=
  if t.sig = mac secret t.id t.exp ∧ now < t.exp then some t.id else none

/-- Result of the `authenticateToken` middleware (`server.js` lines 50–61). -/
inductive AuthResult where
  | accessDenied
  | invalidToken
  | authenticated (id : Nat)
deriving DecidableEq, Repr

/-- The `authenticateToken` middleware: no bearer token → 401 `accessDenied`;
`jwt.verify` failure → 403 `invalidToken`; otherwise the decoded user id is
exposed as `req.user` for this request. -/
def authenticateToken (secret : String) (now : Nat) (tok : Option Token) : AuthResult :=
  match tok with
  | none => .accessDenied
  | some t =>
    match jwtVerify secret now t with
    | none => .invalidToken
    | some id => .authenticated id

/-- The `user` projection in the `server.js` `/login` success body, as the
field list of the JSON object literal `{ id, name, email }`. -/
def loginUserBody (u : UserRec) : List (String × String) :=
  [("id", toString u.id), ("name", u.name), ("email", u.email)]

/-- The `user` projection in the `routes/auth.js` `/login` success body:
`{ id, username, email, travelHistory }` (legacy travel-history field). -/
def loginUserBodyLegacy (u : UserRec) : List (String × String) :=
  [("id", toString u.id), ("username", u.name), ("email", u.email),
    ("travelHistory", "[]")]

/-- The full user document as a JSON object (all `userSchema` fields). -/
def userDoc (u : UserRec) : List (String × String) :=
  [("_id", toString u.id), ("name", u.name), ("email", u.email),
    ("password", u.password)]

/-- Model of the mongoose select with the password field negated: drop it from
the document. -/
def selectWithout (field : String) (doc : List (String × String)) :
    List (String × String) :=
  doc.filter (fun kv => kv.1 ≠ field)

/-- The `/user-data` route body (`routes/user.js` lines 8–15):
`User.findById` on `req.user.id` followed by the password-excluding select. -/
def userDataBody (u : UserRec) : List (String × String) :=
  selectWithout "password" (userDoc u)

/-- Result of the `/login` handler (`server.js` lines 87–109). -/
inductive LoginResult where
  | missingFields
  | invalidCredentials
  | success (token : Token) (body : List (String × String))
deriving DecidableEq, Repr

/-- The `/login` handler: requires both fields, looks the user up by email,
compares the password against the stored hash, and on success signs a token
over the id of the user and returns it with the public user projection. -/
def login (secret : String) (now : Nat) (db : List UserRec)
    (email password : Option String) : LoginResult :=
  if falsyStr email || falsyStr password then .missingFields
  else
    match findOneByEmail db (email.getD "") with
    | none => .invalidCredentials
    | some u =>
      if bcryptCompare (password.getD "") u.password then
        .success (jwtSign secret u.id now) (loginUserBody u)
      else .invalidCredentials

/-! ## Travel records (`/save-travel`, `/travel-history`) -/

/-- A stored travel document (`travelSchema`). -/
structure TravelRec where
  userId : Nat
  destination : String
  budget : ℚ
  date : Nat
  nights : ℚ
deriving DecidableEq, Repr

/-- Request body of `/save-travel`.  A client may also send a `userId` field;
the handler never reads it. -/
structure SaveBody where
  userId : Option Nat
  destination : Option String
  budget : Option ℚ
  nights : Option ℚ
deriving DecidableEq, Repr

/-- JS truthiness of an optional numeric body field: `undefined` and `0` are
falsy. -/
def falsyNum : Option ℚ → Bool
  | none => true
  | some q => q = 0

/-- Result of the `/save-travel` handler body (after authentication). -/
inductive SaveResult where
  | missingFields
  | saved
deriving DecidableEq, Repr

/-- The `/save-travel` handler body (`server.js` lines 204–226), run with the
authenticated id `authId` (`req.user.id`) at server time `now`: requires
destination, budget, nights truthy, then persists a record whose owner is
`authId` and whose date is server-assigned. -/
def saveTravel (db : List TravelRec) (authId : Nat) (now : Nat) (body : SaveBody) :
    SaveResult × List TravelRec :=
  if falsyStr body.destination || falsyNum body.budget || falsyNum body.nights then
    (.missingFields, db)
  else
    (.saved, db ++ [⟨authId, body.destination.getD "", (body.budget).getD 0, now,
      (body.nights).getD 0⟩])

/-- The full `/save-travel` route: `authenticateToken` gate, then the handler
body.  Auth failure leaves the store untouched. -/
def saveTravelRoute (secret : String) (now : Nat) (db : List TravelRec)
    (tok : Option Token) (body : SaveBody) : AuthResult × SaveResult × List TravelRec :=
  match authenticateToken secret now tok with
  | .authenticated id =>
    let r := saveTravel db id now body
    (.authenticated id, r.1, r.2)
  | .accessDenied => (.accessDenied, .missingFields, db)
  | .invalidToken => (.invalidToken, .missingFields, db)

/-- Date-descending order used by `.sort({ date: -1 })`. -/
def dateDesc (a b : TravelRec) : Prop := b.date ≤ a.date

instance : DecidableRel dateDesc := fun a b => Nat.decLe b.date a.date

instance : IsTotal TravelRec dateDesc :=
  ⟨fun a b => Nat.le_total b.date a.date⟩

instance : IsTrans TravelRec dateDesc :=
  ⟨fun _ _ _ h1 h2 => Nat.le_trans h2 h1⟩

/-- The `/travel-history` handler body (`server.js` lines 229–237):
`Travel.find({ userId: req.user.id }).sort({ date: -1 })`. -/
def getHistory (db : List TravelRec) (uid : Nat) : List TravelRec :=
  List.insertionSort dateDesc (db.filter (fun r => r.userId = uid))

/-! ## Claims -/

/-- C1: with tier Mid-Range, travelers 2, nights 3, distance 100 km (100000 m
from the service), AC Bus, and no shopping amount, the handler returns
transportationCost 1000, foodCost 3600, hotelCost 9000, shoppingCost 0 and
totalCost 13600; for every valid input the returned breakdown satisfies the
cost formulas, and the handler is deterministic. -/
theorem C1_budget_formulas :
    (calculateBudget ⟨3, 2, "Mid-Range", "Bus", "AC Bus", .undef⟩
        (.success ⟨some ⟨some 100000⟩⟩)
      = (.ok ⟨100, 1000, 3600, some 0, 9000, some 13600⟩, true))
    ∧ (∀ (inp : BudgetInput) (rates : TierRates) (rate : ℚ) (el : DistanceElement)
        (b : Breakdown),
        pricing inp.budgetLevel = some rates →
        perKmRateOf inp.transportMode inp.transportSubtype = some rate →
        calculateBudget inp (.success ⟨some el⟩) = (.ok b, true) →
        b.transportationCost = inp.travelers * b.distanceInKm * rate ∧
        b.foodCost = inp.travelers * inp.nights * rates.foodCostPerDay ∧
        b.hotelCost = inp.travelers * inp.nights * rates.hotelCostPerNight ∧
        b.totalCost = jadd (jadd (jadd (some b.transportationCost) (some b.foodCost))
          b.shoppingCost) (some b.hotelCost))
    ∧ (∀ (inp1 inp2 : BudgetInput) (svc1 svc2 : DistanceOutcome),
        inp1 = inp2 → svc1 = svc2 → calculateBudget inp1 svc1 = calculateBudget inp2 svc2) := by
  refine ⟨?_, ?_, ?_⟩
  · simp [calculateBudget, pricing, perKmRateOf, transportPricing, busRates,
      extractDistance, truthy, jadd, List.lookup]
    norm_num
  · intro inp rates rate el b h1 h2 h3
    simp only [calculateBudget, h1, h2] at h3
    have hb := (Prod.mk.injEq _ _ _ _).mp h3
    cases (BudgetResult.ok.injEq _ _).mp hb.1
    exact ⟨rfl, rfl, rfl, rfl⟩
  · intro inp1 inp2 svc1 svc2 h h2
    rw [h, h2]

/-- Witness for C1 at the concrete input of the claim. -/
theorem C1_budget_formulas_witness :
    calculateBudget ⟨3, 2, "Mid-Range", "Bus", "AC Bus", .undef⟩
        (.success ⟨some ⟨some 100000⟩⟩)
      = (.ok ⟨100, 1000, 3600, some 0, 9000, some 13600⟩, true)
    ∧ (1000 : ℚ) = 2 * 100 * 5
    ∧ (3600 : ℚ) = 2 * 3 * 600
    ∧ (9000 : ℚ) = 2 * 3 * 1500
    ∧ (some 13600 : JSNum)
        = jadd (jadd (jadd (some 1000) (some 3600)) (some 0)) (some 9000) := by
  have h := C1_budget_formulas.2.1 ⟨3, 2, "Mid-Range", "Bus", "AC Bus", .undef⟩
    ⟨1500, 600⟩ 5 ⟨some 100000⟩ ⟨100, 1000, 3600, some 0, 9000, some 13600⟩
    (by rfl) (by rfl) C1_budget_formulas.1
  refine ⟨C1_budget_formulas.1, ?_, ?_, ?_, h.2.2.2⟩
  · have h1 := h.1
    norm_num [extractDistance] at h1 ⊢
  · have h2 := h.2.1
    norm_num at h2 ⊢
  · have h3 := h.2.2.1
    norm_num at h3 ⊢

/-- C4: a signup request with any of name, email, password missing or empty
fails with the missing-fields 400 response and leaves the credential store
unchanged (no user record is created). -/
theorem C4_signup_missing_fields (db : List UserRec) (nextId : Nat)
    (name email password : Option String)
    (h : (falsyStr name || falsyStr email || falsyStr password) = true) :
    signup db nextId name email password = (.missingFields, db) := by
  simp only [signup]
  rw [if_pos h]

/-- Witness for C4: missing name with nonempty email and password. -/
theorem C4_signup_missing_fields_witness :
    signup [] 0 none (some "a@b.com") (some "pw") = (.missingFields, []) :=
  C4_signup_missing_fields [] 0 none (some "a@b.com") (some "pw") (by rfl)

/-- C5: a budget request with an unknown tier or an unresolved transport
mode/subtype combination fails validation with the 400 response, and the
network call to the distance service is never attempted, whatever the
service would have answered. -/
theorem C5_invalid_no_network (inp : BudgetInput) (svc : DistanceOutcome)
    (h : pricing inp.budgetLevel = none ∨
      perKmRateOf inp.transportMode inp.transportSubtype = none) :
    calculateBudget inp svc = (.invalid, false) := by
  rcases h with h | h
  · simp [calculateBudget, h]
  · cases hp : pricing inp.budgetLevel <;> simp [calculateBudget, hp, h]

/-- Witness for C5: unknown tier, and known tier with unknown subtype. -/
theorem C5_invalid_no_network_witness :
    calculateBudget ⟨3, 2, "Budget", "Bus", "AC Bus", .undef⟩ .failure
      = (.invalid, false)
    ∧ calculateBudget ⟨3, 2, "Mid-Range", "Bus", "Metro", .undef⟩ .failure
      = (.invalid, false) :=
  ⟨C5_invalid_no_network _ _ (Or.inl (by rfl)),
    C5_invalid_no_network _ _ (Or.inr (by rfl))⟩

/-- C8 counterexample: with the truthy but unparsable shopping amount "abc",
the handler returns shoppingCost NaN (not 0) and totalCost NaN, refuting both
the safe-fallback-to-0 and the never-NaN parts of the claim. -/
theorem C8_nan_counterexample :
    calculateBudget ⟨3, 2, "Mid-Range", "Bus", "AC Bus", .str "abc"⟩
        (.success ⟨some ⟨some 100000⟩⟩)
      = (.ok ⟨100, 1000, 3600, none, 9000, none⟩, true)
    ∧ truthy (.str "abc") = true
    ∧ parseFloatVal (.str "abc") = none := by
  have hp : parseFloatVal (.str "abc") = none := by rfl
  refine ⟨?_, rfl, hp⟩
  simp [calculateBudget, pricing, perKmRateOf, transportPricing, busRates,
    extractDistance, truthy, jadd, hp, List.lookup]
  norm_num

/-- C8 (amended): on every valid request that reaches a breakdown, the
shopping cost is `parseFloat(shoppingAmount)` when the supplied amount is
truthy and 0 otherwise — so a truthy unparsable amount yields NaN, not 0 —
and the total cost is NaN exactly when the shopping cost is. -/
theorem C8_shopping_cost (inp : BudgetInput) (rates : TierRates) (rate : ℚ)
    (el : DistanceElement) (b : Breakdown)
    (h1 : pricing inp.budgetLevel = some rates)
    (h2 : perKmRateOf inp.transportMode inp.transportSubtype = some rate)
    (h3 : calculateBudget inp (.success ⟨some el⟩) = (.ok b, true)) :
    b.shoppingCost
      = (if truthy inp.shoppingAmount then parseFloatVal inp.shoppingAmount else some 0)
    ∧ (b.totalCost = none ↔ b.shoppingCost = none) := by
  simp only [calculateBudget, h1, h2] at h3
  cases (BudgetResult.ok.injEq _ _).mp ((Prod.mk.injEq _ _ _ _).mp h3).1
  refine ⟨rfl, ?_⟩
  show jadd _ (some _) = none ↔ _
  cases hsc : (if truthy inp.shoppingAmount then parseFloatVal inp.shoppingAmount
      else some 0) <;>
    simp [jadd, hsc]

/-- Witness for C8 (amended) at the unparsable amount "abc". -/
theorem C8_shopping_cost_witness :
    (none : JSNum)
      = (if truthy (.str "abc") then parseFloatVal (.str "abc") else some 0)
    ∧ ((none : JSNum) = none ↔ (none : JSNum) = none) := by
  have hcalc : calculateBudget ⟨3, 2, "Mid-Range", "Bus", "AC Bus", .str "abc"⟩
      (.success ⟨some ⟨some 100000⟩⟩)
      = (.ok ⟨100, 1000, 3600, none, 9000, none⟩, true) := by
    have hp : parseFloatVal (.str "abc") = none := by rfl
    simp [calculateBudget, pricing, perKmRateOf, transportPricing, busRates,
      extractDistance, truthy, jadd, hp, List.lookup]
    norm_num
  exact C8_shopping_cost ⟨3, 2, "Mid-Range", "Bus", "AC Bus", .str "abc"⟩
    ⟨1500, 600⟩ 5 ⟨some 100000⟩ ⟨100, 1000, 3600, none, 9000, none⟩ rfl rfl hcalc

/-- C9: on a valid request, when the distance service answers but the first
element carries a missing or zero distance, the handler still returns a
breakdown, with distance 0 km and transportation cost 0; a gateway error
(500) arises only from a failed call or an unreachable first element. -/
theorem C9_zero_distance (inp : BudgetInput) (rates : TierRates) (rate : ℚ)
    (el : DistanceElement)
    (h1 : pricing inp.budgetLevel = some rates)
    (h2 : perKmRateOf inp.transportMode inp.transportSubtype = some rate)
    (h0 : el.distanceValue = none ∨ el.distanceValue = some 0) :
    (∃ b : Breakdown, calculateBudget inp (.success ⟨some el⟩) = (.ok b, true)
      ∧ b.distanceInKm = 0 ∧ b.transportationCost = 0)
    ∧ (∀ svc, (calculateBudget inp svc).1 = .gatewayError →
        svc = .failure ∨ svc = .success ⟨none⟩) := by
  have hd : extractDistance el = 0 := by
    rcases h0 with h0 | h0 <;> simp [extractDistance, h0]
  constructor
  · refine ⟨⟨extractDistance el / 1000,
        inp.travelers * (extractDistance el / 1000) * rate,
        inp.travelers * inp.nights * rates.foodCostPerDay,
        (if truthy inp.shoppingAmount then parseFloatVal inp.shoppingAmount else some 0),
        inp.travelers * inp.nights * rates.hotelCostPerNight,
        jadd (jadd (jadd (some (inp.travelers * (extractDistance el / 1000) * rate))
          (some (inp.travelers * inp.nights * rates.foodCostPerDay)))
          (if truthy inp.shoppingAmount then parseFloatVal inp.shoppingAmount else some 0))
          (some (inp.travelers * inp.nights * rates.hotelCostPerNight))⟩,
      by simp only [calculateBudget, h1, h2], ?_, ?_⟩
    · simp [hd]
    · simp [hd]
  · intro svc hg
    match svc with
    | .failure => exact Or.inl rfl
    | .success ⟨none⟩ => exact Or.inr rfl
    | .success ⟨some el2⟩ => simp [calculateBudget, h1, h2] at hg

/-- Witness for C9: missing distance object on a valid Mid-Range AC Bus
request. -/
theorem C9_zero_distance_witness :
    pricing "Mid-Range" = some ⟨1500, 600⟩
    ∧ perKmRateOf "Bus" "AC Bus" = some 5
    ∧ (∃ b : Breakdown,
        calculateBudget ⟨3, 2, "Mid-Range", "Bus", "AC Bus", .undef⟩
            (.success ⟨some ⟨none⟩⟩)
          = (.ok b, true)
        ∧ b.distanceInKm = 0 ∧ b.transportationCost = 0) :=
  ⟨rfl, rfl,
    (C9_zero_distance ⟨3, 2, "Mid-Range", "Bus", "AC Bus", .undef⟩
      ⟨1500, 600⟩ 5 ⟨none⟩ rfl rfl (Or.inl rfl)).1⟩

/-- C2: a token issued by a successful login authenticates, before its
expiry, to exactly the user id found at issuance; the expiry is one hour
after issuance; a token past its expiry fails with the 403 result, and so
does any token whose signature does not match the recomputed one. -/
theorem C2_token_roundtrip :
    (∀ (secret : String) (db : List UserRec) (e pw : String) (u : UserRec)
        (tok : Token) (body : List (String × String)) (tIssue tNow : Nat),
        findOneByEmail db e = some u →
        login secret tIssue db (some e) (some pw) = .success tok body →
        (tNow < tok.exp → authenticateToken secret tNow (some tok) = .authenticated u.id)
        ∧ tok.exp = tIssue + 3600
        ∧ (tok.exp ≤ tNow → authenticateToken secret tNow (some tok) = .invalidToken))
    ∧ (∀ (secret : String) (tNow : Nat) (t : Token),
        t.sig ≠ mac secret t.id t.exp →
        authenticateToken secret tNow (some t) = .invalidToken) := by
  constructor
  · intro secret db e pw u tok body tIssue tNow hfind hl
    unfold login at hl
    split at hl
    · exact absurd hl (by simp)
    · simp only [Option.getD_some, hfind] at hl
      split at hl
      · obtain ⟨htok, -⟩ := (LoginResult.success.injEq _ _ _ _).mp hl
        subst htok
        refine ⟨?_, rfl, ?_⟩
        · intro hlt
          simp only [authenticateToken, jwtVerify, jwtSign] at hlt ⊢
          rw [if_pos ⟨trivial, hlt⟩]
        · intro hge
          simp only [authenticateToken, jwtVerify, jwtSign] at hge ⊢
          rw [if_neg (by
            intro hc
            exact absurd hc.2 (by omega))]
      · exact absurd hl (by simp)
  · intro secret tNow t h
    simp [authenticateToken, jwtVerify, h]

/-- Witness for C2: a concrete registered user, a token issued at time 0,
presented at 1800 s (accepted), at 3600 s (expired) and with a tampered
signature (rejected). -/
theorem C2_token_roundtrip_witness :
    findOneByEmail [⟨1, "Alice", "a@b", bcryptHash 10 "pw"⟩] "a@b"
      = some ⟨1, "Alice", "a@b", bcryptHash 10 "pw"⟩
    ∧ authenticateToken "s" 1800 (some (jwtSign "s" 1 0)) = .authenticated 1
    ∧ (jwtSign "s" 1 0).exp = 0 + 3600
    ∧ authenticateToken "s" 3600 (some (jwtSign "s" 1 0)) = .invalidToken
    ∧ authenticateToken "s" 0 (some (⟨1, 3600, 0⟩ : Token)) = .invalidToken := by
  have h1 := C2_token_roundtrip.1 "s" [⟨1, "Alice", "a@b", bcryptHash 10 "pw"⟩]
    "a@b" "pw" ⟨1, "Alice", "a@b", bcryptHash 10 "pw"⟩ (jwtSign "s" 1 0)
    (loginUserBody ⟨1, "Alice", "a@b", bcryptHash 10 "pw"⟩) 0 1800 (by rfl) (by rfl)
  have h2 := C2_token_roundtrip.1 "s" [⟨1, "Alice", "a@b", bcryptHash 10 "pw"⟩]
    "a@b" "pw" ⟨1, "Alice", "a@b", bcryptHash 10 "pw"⟩ (jwtSign "s" 1 0)
    (loginUserBody ⟨1, "Alice", "a@b", bcryptHash 10 "pw"⟩) 0 3600 (by rfl) (by rfl)
  have h3 := C2_token_roundtrip.2 "s" 0 ⟨1, 3600, 0⟩ (by decide)
  exact ⟨by rfl, h1.1 (by decide), h1.2.1, h2.2.2 (by decide), h3⟩

/-- C3: with all fields present, a first signup with a fresh email succeeds,
and a second signup with the same email fails with the duplicate-email 400
response, leaving the store — in particular the first user record, with its
name, email and password hash — unchanged. -/
theorem C3_duplicate_signup (db0 : List UserRec) (i1 i2 : Nat)
    (n1 n2 e p1 p2 : String)
    (hn1 : n1 ≠ "") (he : e ≠ "") (hp1 : p1 ≠ "") (hn2 : n2 ≠ "") (hp2 : p2 ≠ "")
    (hfresh : findOneByEmail db0 e = none) :
    (signup db0 i1 (some n1) (some e) (some p1)).1 = .created
    ∧ signup (signup db0 i1 (some n1) (some e) (some p1)).2 i2
        (some n2) (some e) (some p2)
      = (.emailExists, (signup db0 i1 (some n1) (some e) (some p1)).2)
    ∧ findOneByEmail (signup db0 i1 (some n1) (some e) (some p1)).2 e
      = some ⟨i1, n1, e, bcryptHash 10 p1⟩ := by
  have hdb1 : signup db0 i1 (some n1) (some e) (some p1)
      = (.created, db0 ++ [⟨i1, n1, e, bcryptHash 10 p1⟩]) := by
    simp [signup, falsyStr, hn1, he, hp1, hfresh]
  have hfind : findOneByEmail (db0 ++ [⟨i1, n1, e, bcryptHash 10 p1⟩]) e
      = some ⟨i1, n1, e, bcryptHash 10 p1⟩ := by
    unfold findOneByEmail at hfresh ⊢
    rw [List.find?_append, hfresh]
    simp
  refine ⟨by rw [hdb1], ?_, by rw [hdb1]; exact hfind⟩
  rw [hdb1]
  simp [signup, falsyStr, hn2, he, hp2, hfind]

/-- Witness for C3: two signups with the same email on an empty store. -/
theorem C3_duplicate_signup_witness :
    (signup [] 1 (some "Alice") (some "a@b") (some "pw")).1 = .created
    ∧ signup (signup [] 1 (some "Alice") (some "a@b") (some "pw")).2 2
        (some "Bob") (some "a@b") (some "pw2")
      = (.emailExists, (signup [] 1 (some "Alice") (some "a@b") (some "pw")).2)
    ∧ findOneByEmail (signup [] 1 (some "Alice") (some "a@b") (some "pw")).2 "a@b"
      = some ⟨1, "Alice", "a@b", bcryptHash 10 "pw"⟩ :=
  C3_duplicate_signup [] 1 2 "Alice" "Bob" "a@b" "pw" "pw2"
    (by decide) (by decide) (by decide) (by decide) (by decide) (by rfl)

/-- C6: no login success body and no user-data body carries a `password`
key: the `server.js` login projection has exactly id, name, email, the
legacy `routes/auth.js` projection adds only the travel-history field, and
the user-data body is the user document with the password field excluded. -/
theorem C6_no_password_leak :
    (∀ u : UserRec, "password" ∉ (loginUserBody u).map Prod.fst)
    ∧ (∀ u : UserRec, "password" ∉ (loginUserBodyLegacy u).map Prod.fst)
    ∧ (∀ u : UserRec, "password" ∉ (userDataBody u).map Prod.fst)
    ∧ (∀ (secret : String) (now : Nat) (db : List UserRec) (e pw : Option String)
        (tok : Token) (body : List (String × String)),
        login secret now db e pw = .success tok body →
        "password" ∉ body.map Prod.fst) := by
  refine ⟨?_, ?_, ?_, ?_⟩
  · intro u; simp [loginUserBody]
  · intro u; simp [loginUserBodyLegacy]
  · intro u; simp [userDataBody, selectWithout, userDoc]
  · intro secret now db e pw tok body hl
    unfold login at hl
    split at hl
    · exact absurd hl (by simp)
    · split at hl
      · exact absurd hl (by simp)
      · split at hl
        · obtain ⟨-, hbody⟩ := (LoginResult.success.injEq _ _ _ _).mp hl
          subst hbody
          simp [loginUserBody]
        · exact absurd hl (by simp)

/-- Witness for C6 on a concrete user and a concrete successful login. -/
theorem C6_no_password_leak_witness :
    "password" ∉ (loginUserBody ⟨1, "Alice", "a@b", bcryptHash 10 "pw"⟩).map Prod.fst
    ∧ "password" ∉
        (loginUserBodyLegacy ⟨1, "Alice", "a@b", bcryptHash 10 "pw"⟩).map Prod.fst
    ∧ "password" ∉ (userDataBody ⟨1, "Alice", "a@b", bcryptHash 10 "pw"⟩).map Prod.fst
    ∧ "password" ∉
        (loginUserBody ⟨1, "Alice", "a@b", bcryptHash 10 "pw"⟩).map Prod.fst :=
  ⟨C6_no_password_leak.1 _, C6_no_password_leak.2.1 _, C6_no_password_leak.2.2.1 _,
    C6_no_password_leak.2.2.2 "s" 0 [⟨1, "Alice", "a@b", bcryptHash 10 "pw"⟩]
      (some "a@b") (some "pw") (jwtSign "s" 1 0) _ (by rfl)⟩

/-- C7: the travel-history result contains exactly the stored records owned
by the requesting user — a record saved by one user never appears in another
user history — sorted by date descending, and a user with no records gets
the empty array rather than an error. -/
theorem C7_history_exact_sorted (db : List TravelRec) (uid : Nat) :
    (∀ r : TravelRec, r ∈ getHistory db uid ↔ r ∈ db ∧ r.userId = uid)
    ∧ List.Sorted dateDesc (getHistory db uid)
    ∧ ((∀ r ∈ db, r.userId ≠ uid) → getHistory db uid = []) := by
  refine ⟨?_, ?_, ?_⟩
  · intro r
    unfold getHistory
    rw [List.mem_insertionSort]
    simp [List.mem_filter]
  · exact List.sorted_insertionSort dateDesc _
  · intro h
    unfold getHistory
    have hnil : db.filter (fun r => decide (r.userId = uid)) = [] := by
      rw [List.filter_eq_nil_iff]
      intro a ha
      simp [h a ha]
    rw [hnil]
    rfl

/-- Witness for C7: a three-record store with two owners; records of user 2
never show up for user 1, and the history of a user with no records is
empty. -/
theorem C7_history_exact_sorted_witness :
    ((⟨1, "Pune", 30, 6, 1⟩ : TravelRec) ∈ getHistory
        [⟨1, "Goa", 100, 5, 2⟩, ⟨2, "Agra", 50, 7, 1⟩, ⟨1, "Pune", 30, 6, 1⟩] 1
      ↔ (⟨1, "Pune", 30, 6, 1⟩ : TravelRec)
          ∈ [⟨1, "Goa", 100, 5, 2⟩, ⟨2, "Agra", 50, 7, 1⟩, ⟨1, "Pune", 30, 6, 1⟩]
        ∧ (⟨1, "Pune", 30, 6, 1⟩ : TravelRec).userId = 1)
    ∧ List.Sorted dateDesc (getHistory
        [⟨1, "Goa", 100, 5, 2⟩, ⟨2, "Agra", 50, 7, 1⟩, ⟨1, "Pune", 30, 6, 1⟩] 1)
    ∧ getHistory [(⟨1, "Goa", 100, 5, 2⟩ : TravelRec)] 2 = [] := by
  have h := C7_history_exact_sorted
    [⟨1, "Goa", 100, 5, 2⟩, ⟨2, "Agra", 50, 7, 1⟩, ⟨1, "Pune", 30, 6, 1⟩] 1
  have h2 := C7_history_exact_sorted [(⟨1, "Goa", 100, 5, 2⟩ : TravelRec)] 2
  refine ⟨h.1 _, h.2.1, h2.2.2 ?_⟩
  intro r hr
  rcases List.mem_singleton.mp hr with rfl
  decide

/-- C10: along the save-travel route, the owner id of every newly created
record is the id decoded from the verified bearer token, and a userId field
supplied in the request body has no effect on the outcome. -/
theorem C10_owner_from_token (secret : String) (now : Nat) (db : List TravelRec)
    (tok : Option Token) (body : SaveBody) :
    (∀ (t : Token) (uid : Nat), tok = some t →
      authenticateToken secret now tok = .authenticated uid → uid = t.id)
    ∧ (∀ uid : Nat, authenticateToken secret now tok = .authenticated uid →
        ∀ r ∈ (saveTravelRoute secret now db tok body).2.2, r ∈ db ∨ r.userId = uid)
    ∧ (∀ x : Option Nat,
        saveTravelRoute secret now db tok {body with userId := x}
          = saveTravelRoute secret now db tok body) := by
  refine ⟨?_, ?_, ?_⟩
  · intro t uid htok hauth
    subst htok
    simp only [authenticateToken, jwtVerify] at hauth
    split at hauth
    · exact absurd hauth (by simp)
    · rename_i id heq
      have h1 := (AuthResult.authenticated.injEq _ _).mp hauth
      by_cases hc : t.sig = mac secret t.id t.exp ∧ now < t.exp
      · rw [if_pos hc] at heq
        have h2 := (Option.some.injEq _ _).mp heq
        omega
      · rw [if_neg hc] at heq
        exact absurd heq (by simp)
  · intro uid hauth r hr
    simp only [saveTravelRoute, hauth] at hr
    unfold saveTravel at hr
    split at hr
    · exact Or.inl hr
    · rcases List.mem_append.mp hr with hmem | hmem
      · exact Or.inl hmem
      · rcases List.mem_singleton.mp hmem with rfl
        exact Or.inr rfl
  · intro x
    cases body
    rfl

/-- Witness for C10: a token for user 7, a body that claims userId 42 or 99;
the created record is owned by 7 either way. -/
theorem C10_owner_from_token_witness :
    (7 : Nat) = (jwtSign "s" 7 0).id
    ∧ ((⟨7, "Goa", 100, 0, 2⟩ : TravelRec) ∈ ([] : List TravelRec)
        ∨ (⟨7, "Goa", 100, 0, 2⟩ : TravelRec).userId = 7)
    ∧ saveTravelRoute "s" 0 [] (some (jwtSign "s" 7 0))
        ⟨some 99, some "Goa", some 100, some 2⟩
      = saveTravelRoute "s" 0 [] (some (jwtSign "s" 7 0))
        ⟨some 42, some "Goa", some 100, some 2⟩ := by
  have h := C10_owner_from_token "s" 0 [] (some (jwtSign "s" 7 0))
    ⟨some 42, some "Goa", some 100, some 2⟩
  have hroute : (saveTravelRoute "s" 0 [] (some (jwtSign "s" 7 0))
      ⟨some 42, some "Goa", some 100, some 2⟩).2.2 = [⟨7, "Goa", 100, 0, 2⟩] := by
    simp [saveTravelRoute, authenticateToken, jwtVerify, jwtSign, saveTravel,
      falsyStr, falsyNum]
  refine ⟨h.1 (jwtSign "s" 7 0) 7 rfl (by rfl), ?_, h.2.2 (some 99)⟩
  exact h.2.1 7 (by rfl) _ (by rw [hroute]; exact List.mem_singleton.mpr rfl)

end Yatra
